import Mathlib

/-!
Verification of the PHYRE action-mapper / action-simulator layer.

The Python sources under `src/python/phyre` are shallowly embedded:
floating point numbers are modelled as exact rationals (for the action
mappers, where all constants are dyadic) or as real numbers (for the
shape builders, which use `math.sqrt`), native C++ `simulator_bindings`
entry points are modelled as explicit function parameters, and Python
assertions become `Option` results.
-/

namespace Phyre

/-- Scene width in pixels, `creator/constants.py`. -/
def SCENE_WIDTH : ℚ := 256

/-- Scene height in pixels, `creator/constants.py`. -/
def SCENE_HEIGHT : ℚ := 256

/-- A 2D point, `scene_if.Vector`. -/
structure Vector where
  x : ℚ
  y : ℚ
deriving DecidableEq

/-- A ball of a user input, `scene_if.CircleWithPosition`. -/
structure CircleWithPosition where
  position : Vector
  radius : ℚ
deriving DecidableEq

/-- A polygon of a user input given by absolute vertices,
`scene_if.AbsoluteConvexPolygon`. -/
structure AbsoluteConvexPolygon where
  vertices : List Vector
deriving DecidableEq

/-- An agent's action translated to scene terms, `scene_if.UserInput`. -/
structure UserInput where
  flattened_point_list : List ℚ
  balls : List CircleWithPosition
  polygons : List AbsoluteConvexPolygon
deriving DecidableEq

/-- `action_mappers.EMPTY_USER_INPUT`. -/
def EMPTY_USER_INPUT : UserInput := ⟨[], [], []⟩

/-- Truncation toward zero: Python `int()` applied to a float. -/
def pyInt (q : ℚ) : ℤ := if 0 ≤ q then ⌊q⌋ else ⌈q⌉

/-- Python 3 `round` of a float to an integer: round half to even. -/
def pyRound (q : ℚ) : ℤ :=
  let f := ⌊q⌋
  let r := q - f
  if r < 1/2 then f
  else if 1/2 < r then f + 1
  else if f % 2 = 0 then f else f + 1

/-- Inner helper `are_points_inside` of `action_mappers._is_inside_scene`:
every point must lie in `[0, SCENE_WIDTH) x [0, SCENE_HEIGHT)`; an empty
point array passes. -/
def are_points_inside (points : List Vector) : Bool :=
  points.all fun p =>
    decide (0 ≤ p.x) && decide (p.x < SCENE_WIDTH) &&
    decide (0 ≤ p.y) && decide (p.y < SCENE_HEIGHT)

/-- Group a flattened coordinate list into points, as numpy reshape (-1, 2)
does for the flattened point list. -/
def to_points : List ℚ → List Vector
  | x :: y :: rest => ⟨x, y⟩ :: to_points rest
  | _ => []

/-- `action_mappers._is_inside_scene`: flattened points and polygon vertices
must lie strictly inside the scene, and every ball must satisfy
`radius ≤ x ≤ SCENE_WIDTH - radius` and `radius ≤ y ≤ SCENE_HEIGHT - radius`. -/
def is_inside_scene (ui : UserInput) : Bool :=
  are_points_inside (to_points ui.flattened_point_list) &&
  are_points_inside (ui.polygons.flatMap fun p => p.vertices) &&
  ui.balls.all fun b =>
    decide (b.radius ≤ b.position.x) &&
    decide (b.position.x ≤ SCENE_WIDTH - b.radius) &&
    decide (b.radius ≤ b.position.y) &&
    decide (b.position.y ≤ SCENE_HEIGHT - b.radius)

/-- `action_mappers._scale`: affine map of `[0, 1]` onto `[low, high]`. -/
def pyScale (x low high : ℚ) : ℚ := x * (high - low) + low

namespace BallScaler

/-- `BallScaler.MIN_RADIUS`. -/
def MIN_RADIUS : ℚ := 2

/-- `BallScaler.MAX_RADIUS = max(SCENE_WIDTH, SCENE_HEIGHT) // 8`. -/
def MAX_RADIUS : ℚ := 32

/-- `BallScaler.scale`: scale unit-box ball coordinates to scene coordinates. -/
def scale (x y radius : ℚ) : ℚ × ℚ × ℚ :=
  (pyScale x 0 (SCENE_WIDTH - 1), pyScale y 0 (SCENE_HEIGHT - 1),
    pyScale radius MIN_RADIUS MAX_RADIUS)

/-- The circle appended to the user input by `BallScaler.add_to_user_input`. -/
def circle (x y radius : ℚ) : CircleWithPosition :=
  let s := scale x y radius
  ⟨⟨s.1, s.2.1⟩, s.2.2⟩

end BallScaler

/-- `action_mappers._quantize_user_input_in_place`: polygon vertices and ball
radii are rounded (Python `round`, half to even), ball centers are truncated
(Python `int`). -/
def quantize_user_input (ui : UserInput) : UserInput :=
  ⟨ui.flattened_point_list,
    ui.balls.map fun c =>
      ⟨⟨(pyInt c.position.x : ℚ), (pyInt c.position.y : ℚ)⟩, (pyRound c.radius : ℚ)⟩,
    ui.polygons.map fun p =>
      ⟨p.vertices.map fun v => ⟨(pyRound v.x : ℚ), (pyRound v.y : ℚ)⟩⟩⟩

/-- An action of the single-ball tier: three components in the unit box. -/
structure SingleBallAction where
  x : ℚ
  y : ℚ
  r : ℚ
deriving DecidableEq

/-- An action of the two-balls tier, `x1, y1, r1, x2, y2, r2`. -/
structure TwoBallsAction where
  x1 : ℚ
  y1 : ℚ
  r1 : ℚ
  x2 : ℚ
  y2 : ℚ
  r2 : ℚ
deriving DecidableEq

/-- Components of a single-ball action in order. -/
def SingleBallAction.components (a : SingleBallAction) : List ℚ := [a.x, a.y, a.r]

/-- Components of a two-balls action in order. -/
def TwoBallsAction.components (a : TwoBallsAction) : List ℚ :=
  [a.x1, a.y1, a.r1, a.x2, a.y2, a.r2]

/-- The guard `all(0 <= x <= 1 for x in action)` of the action mappers. -/
def in_unit_box (xs : List ℚ) : Bool := xs.all fun v => decide (0 ≤ v) && decide (v ≤ 1)

/-- Squared euclidean distance between two points. -/
def dist_sq (p q : Vector) : ℚ := (p.x - q.x) ^ 2 + (p.y - q.y) ^ 2

/-- `SingleBallActionMapper.action_to_user_input`. -/
def single_ball_action_to_user_input (a : SingleBallAction) : UserInput × Bool :=
  if ¬ in_unit_box a.components then (EMPTY_USER_INPUT, false)
  else
    let ui : UserInput := ⟨[], [BallScaler.circle a.x a.y a.r], []⟩
    if ¬ is_inside_scene ui then (EMPTY_USER_INPUT, false)
    else (quantize_user_input ui, true)

/-- `TwoBallsActionMapper.action_to_user_input`.  The source computes
`dist = ((x1-x2)**2 + (y1-y2)**2)**0.5` and rejects when
`dist < r1 + r2 + 1`; both sides being nonnegative (radii are at least
`MIN_RADIUS = 2` after scaling), this is equivalent to the comparison of
squares used here, which stays inside the rationals. -/
def two_balls_action_to_user_input (a : TwoBallsAction) : UserInput × Bool :=
  if ¬ in_unit_box a.components then (EMPTY_USER_INPUT, false)
  else
    let ball1 := BallScaler.circle a.x1 a.y1 a.r1
    let ball2 := BallScaler.circle a.x2 a.y2 a.r2
    let ui : UserInput := ⟨[], [ball1, ball2], []⟩
    if ¬ is_inside_scene ui then (EMPTY_USER_INPUT, false)
    else if dist_sq ball1.position ball2.position <
        (ball1.radius + ball2.radius + 1) ^ 2 then (EMPTY_USER_INPUT, false)
    else if ¬ is_inside_scene ui then (EMPTY_USER_INPUT, false)
    else (quantize_user_input ui, true)

/-- `action_simulator.SimulationStatus`. -/
inductive SimulationStatus
  | NOT_SOLVED
  | INVALID_INPUT
  | SOLVED
  | UNSTABLY_SOLVED
  | STABLY_SOLVED
deriving DecidableEq

/-- `SimulationStatus.is_solved`. -/
def SimulationStatus.is_solved : SimulationStatus → Bool
  | SimulationStatus.SOLVED => true
  | SimulationStatus.STABLY_SOLVED => true
  | SimulationStatus.UNSTABLY_SOLVED => true
  | _ => false

/-- `SimulationStatus.is_not_solved`. -/
def SimulationStatus.is_not_solved : SimulationStatus → Bool
  | SimulationStatus.NOT_SOLVED => true
  | _ => false

/-- Contents of one simulation image, a byte array. -/
def Images : Type := List ℕ
deriving instance DecidableEq for Images

/-- Contents of a featurized-objects array. -/
def FeatObjects : Type := List ℚ
deriving instance DecidableEq for FeatObjects

/-- Raw result of the native `simulator_bindings` simulation entry point:
solved flag, occlusion flag, images and featurized objects. -/
structure PoniesOut where
  is_solved : Bool
  had_occlusions : Bool
  images : Images
  objects : FeatObjects

/-- Modelled from the spec: the native simulation engine, as seen through
`phyre.simulator` for one fixed serialized task.  The C++ sources of
`simulator_bindings` are not part of the Python tree; per the spec (§4.3,
§8) the engine is a deterministic function of the serialized task, the user
input, the stride and the flags, which is exactly what a Lean function is.
`check_for_occlusions` takes the user input and `keep_space_around_bodies`;
`magic_ponies` takes the user input, the stride,
`keep_space_around_bodies`, `need_images` and `need_featurized_objects`. -/
structure SimOracle where
  check_for_occlusions : UserInput → Bool → Bool
  magic_ponies : UserInput → ℕ → Bool → Bool → Bool → PoniesOut

/-- An action tier, `action_mappers.ActionMapper`: the two class variables
and the action translation.  `α` is the tier's action space. -/
structure ActionMapper (α : Type) where
  occlusions_allowed : Bool
  keep_space_around_bodies : Bool
  action_to_user_input : α → UserInput × Bool

/-- Default of the class variable `ActionMapper.KEEP_SPACE_AROUND_BODIES`
on the abstract base class (`action_mappers.py` line 63). -/
def ActionMapper.default_keep_space : Bool := true

/-- `action_mappers.SingleBallActionMapper`. -/
def SingleBallActionMapper : ActionMapper SingleBallAction :=
  ⟨false, false, single_ball_action_to_user_input⟩

/-- `action_mappers.TwoBallsActionMapper`. -/
def TwoBallsActionMapper : ActionMapper TwoBallsAction :=
  ⟨false, false, two_balls_action_to_user_input⟩

/-- An action of the ramp (freehand) tier; its six components. -/
structure RampAction where
  x : ℚ
  y : ℚ
  width : ℚ
  left_height : ℚ
  right_height : ℚ
  angle : ℚ
deriving DecidableEq

/-- The class variables of `action_mappers.RampActionMapper`
(`OCCLUSIONS_ALLOWED = False`, `KEEP_SPACE_AROUND_BODIES = False`, lines
294-295).  Its `action_to_user_input` builds a rotated polygon with
`np.cos`/`np.sin` and is modelled here only through an opaque-free
parameter: the flags are all this development needs from it. -/
def RampActionMapper (toUI : RampAction → UserInput × Bool) : ActionMapper RampAction :=
  ⟨false, false, toUI⟩

/-- Result of `ActionSimulator.simulate_action`, `simulation.Simulation`:
`images` and `featurized_objects` default to `None` in the source and are
`Option`s here. -/
structure Simulation where
  status : SimulationStatus
  images : Option Images
  featurized_objects : Option FeatObjects

/-- `ActionSimulator._simulate_user_input`: when occlusions are not allowed
by the tier, the occlusion check runs first (with the tier's
`KEEP_SPACE_AROUND_BODIES` as `self._keep_spaces`) and a hit is
`INVALID_INPUT` with no images and no objects; otherwise the native
simulation runs (with the stride forced to 100000 when neither images nor
objects are needed) and yields `SOLVED` or `NOT_SOLVED`. -/
def simulate_user_input {α : Type} (m : ActionMapper α) (o : SimOracle)
    (ui : UserInput) (need_images need_featurized_objects : Bool) (stride : ℕ) :
    SimulationStatus × Option Images × Option FeatObjects :=
  if ¬ m.occlusions_allowed && o.check_for_occlusions ui m.keep_space_around_bodies then
    (SimulationStatus.INVALID_INPUT, none, none)
  else
    let stride := if ¬ need_images && ¬ need_featurized_objects then 100000 else stride
    let r := o.magic_ponies ui stride m.keep_space_around_bodies need_images
      need_featurized_objects
    let images := if need_images then some r.images else none
    let objects := if need_featurized_objects then some r.objects else none
    (if r.is_solved then SimulationStatus.SOLVED else SimulationStatus.NOT_SOLVED,
      images, objects)

/-- Shift every polygon vertex and every ball center of a user input by
`(dx, dy)`; radii and flattened points are untouched (the loop body of
`action_simulator._yield_user_input_neighborhood`). -/
def shift_user_input (dx dy : ℚ) (ui : UserInput) : UserInput :=
  ⟨ui.flattened_point_list,
    ui.balls.map fun c => ⟨⟨c.position.x + dx, c.position.y + dy⟩, c.radius⟩,
    ui.polygons.map fun p => ⟨p.vertices.map fun v => ⟨v.x + dx, v.y + dy⟩⟩⟩

/-- The perturbation offsets `(-0.5, 0, 0.5)`. -/
def neighbor_deltas : List ℚ := [-(1/2), 0, 1/2]

/-- `action_simulator._yield_user_input_neighborhood`: the eight shifted
copies of the base user input, skipping `dx = dy = 0`. -/
def yield_user_input_neighborhood (base : UserInput) : List UserInput :=
  neighbor_deltas.flatMap fun dx =>
    neighbor_deltas.flatMap fun dy =>
      if dx = 0 ∧ dy = 0 then [] else [shift_user_input dx dy base]

/-- `ActionSimulator.simulate_action`.  The early-`return` loop over the
neighborhood is expressed with `List.any`. -/
def simulate_action {α : Type} (m : ActionMapper α) (o : SimOracle) (action : α)
    (need_images need_featurized_objects : Bool) (stride : ℕ) (stable : Bool) :
    Simulation :=
  let r := m.action_to_user_input action
  if ¬ r.2 then ⟨SimulationStatus.INVALID_INPUT, none, none⟩
  else
    let s := simulate_user_input m o r.1 need_images need_featurized_objects stride
    if ¬ stable || ¬ s.1.is_solved then ⟨s.1, s.2.1, s.2.2⟩
    else if (yield_user_input_neighborhood r.1).any fun n =>
        (simulate_user_input m o n false false stride).1.is_not_solved then
      ⟨SimulationStatus.UNSTABLY_SOLVED, s.2.1, s.2.2⟩
    else ⟨SimulationStatus.STABLY_SOLVED, s.2.1, s.2.2⟩

/-- Group a flat list into consecutive chunks of `k` elements, as a numpy
reshape with leading dimension -1 does. -/
def chunk_list {β : Type} : ℕ → List β → List (List β)
  | _, [] => []
  | 0, _ :: _ => []
  | k + 1, x :: xs => (x :: xs).take (k + 1) :: chunk_list (k + 1) (xs.drop k)
termination_by _ l => l.length
decreasing_by
  simpa using Nat.lt_succ_of_le (Nat.sub_le xs.length k)

/-- `simulator_bindings.OBJECT_FEATURE_SIZE`; per the spec (§4.5) each
object is featurized as a 14-float vector. -/
def OBJECT_FEATURE_SIZE : ℕ := 14

/-- Raw tuple returned by the native `simulator_bindings.magic_ponies_general`:
solved flag, occlusion flag, packed image bytes, packed float features,
object count and the two timings (floats modelled as reals). -/
structure MagicPoniesRaw where
  is_solved : Bool
  had_occlusions : Bool
  packed_images : List ℕ
  packed_featurized_objects : List ℝ
  number_objects : ℕ
  sim_time : ℝ
  pack_time : ℝ

/-- Modelled from the spec: the two pieces used by
`phyre.simulator.magic_ponies` that are not code of this repository.
`magic_ponies_general` is the C++ simulation entry point of
`simulator_bindings` (arguments: serialized task, serialized user input,
`keep_space_around_bodies`, `steps`, `stride`, `need_images`,
`need_featurized_objects`); per the spec (§4.3, §5, §8) it is a
deterministic function of these arguments.  `serialize` is the Thrift
binary encoder (`TSerialization`, an external library).  The in-repository
post-processing `phyre.simulation.finalize_featurized_objects` is NOT a
field here: it is embedded below (`Phyre.finalize_featurized_objects`),
with its global mutable `DIAMETER_CENTERS` dict as explicit state. -/
structure PoniesBinding where
  magic_ponies_general : List ℕ → List ℕ → Bool → ℕ → ℕ → Bool → Bool → MagicPoniesRaw
  serialize : UserInput → List ℕ

end Phyre

noncomputable section

namespace Phyre.Shapes

/-- Scene width as a real number, for `creator/shapes.py`. -/
def sceneWidth : ℝ := 256

/-- Truncation toward zero over the reals: Python `int()` of a float. -/
def pyIntR (x : ℝ) : ℤ := if 0 ≤ x then ⌊x⌋ else ⌈x⌉

/-- `shapes._interpolate` on a two-element scale range `[lo, hi]`. -/
def interpolate (lo hi scale : ℝ) : ℝ := (1 - scale) * lo + scale * hi

/-- `shapes._inverse_interpolate` on a two-element scale range `[lo, hi]`. -/
def inverse_interpolate (lo hi v : ℝ) : ℝ :=
  let m := min lo hi
  (v - m) / max (lo - m) (hi - m)

namespace Ball

/-- `Ball.RASTERIZATION_BUFFER`. -/
def rasterizationBuffer : ℝ := 1/2

/-- `Ball.SCALE_RANGE = [0, SCENE_WIDTH / 2]`, lower end. -/
def scaleLo : ℝ := 0

/-- `Ball.SCALE_RANGE = [0, SCENE_WIDTH / 2]`, upper end. -/
def scaleHi : ℝ := sceneWidth / 2

/-- `Ball.default_sizes`: the radius for a scale. -/
def default_sizes (scale : ℝ) : ℝ := interpolate scaleLo scaleHi scale

/-- Radius stored by `Ball._build`: `int(radius) + RASTERIZATION_BUFFER`. -/
def build_radius (radius : ℝ) : ℝ := (pyIntR radius : ℝ) + rasterizationBuffer

/-- `Ball._diameter`: `2 * (int(radius) + RASTERIZATION_BUFFER)`. -/
def diameter_of_radius (radius : ℝ) : ℝ :=
  2 * ((pyIntR radius : ℝ) + rasterizationBuffer)

/-- `Ball.diameter(scale=...)`: diameter through `default_sizes`. -/
def diameter (scale : ℝ) : ℝ := diameter_of_radius (default_sizes scale)

/-- `Ball.diameter_to_default_scale`. -/
def diameter_to_default_scale (d : ℝ) : ℝ :=
  inverse_interpolate scaleLo scaleHi (d / 2 - rasterizationBuffer)

end Ball

namespace Box

/-- `Box.SCALE_RANGE = [0, SCENE_WIDTH]`, upper end (lower end is 0). -/
def scaleHi : ℝ := sceneWidth

/-- `Box.default_sizes`: `(width, height)`, both equal to the
interpolated size. -/
def default_sizes (scale : ℝ) : ℝ × ℝ :=
  let size := interpolate 0 scaleHi scale
  (size, size)

/-- `Box._diameter`: the diagonal. -/
def diameter_of (width height : ℝ) : ℝ := Real.sqrt (width ^ 2 + height ^ 2)

/-- `Box.diameter(scale=...)`. -/
def diameter (scale : ℝ) : ℝ :=
  diameter_of (default_sizes scale).1 (default_sizes scale).2

/-- `Box.diameter_to_default_scale`. -/
def diameter_to_default_scale (d : ℝ) : ℝ :=
  inverse_interpolate 0 scaleHi (Real.sqrt (d ^ 2 / 2))

end Box

namespace Bar

/-- `Bar.BAR_HEIGHT = SCENE_WIDTH / 50`. -/
def barHeight : ℝ := sceneWidth / 50

/-- `Bar.default_sizes`: `(width, height)` with the fixed bar height. -/
def default_sizes (scale : ℝ) : ℝ × ℝ :=
  (interpolate 0 Box.scaleHi scale, barHeight)

/-- `Bar.diameter(scale=...)`, via the inherited `Box._diameter`. -/
def diameter (scale : ℝ) : ℝ :=
  Box.diameter_of (default_sizes scale).1 (default_sizes scale).2

/-- `Bar.diameter_to_default_scale`. -/
def diameter_to_default_scale (d : ℝ) : ℝ :=
  inverse_interpolate 0 Box.scaleHi (Real.sqrt (d ^ 2 - barHeight ^ 2))

end Bar

namespace StandingSticks

/-- `StandingSticks.BAR_HEIGHT = SCENE_WIDTH / 50`. -/
def barHeight : ℝ := sceneWidth / 50

/-- `StandingSticks.SCALE_RANGE = [0, SCENE_WIDTH]`, upper end. -/
def scaleHi : ℝ := sceneWidth

/-- `StandingSticks.default_sizes`: `(width, height)` (the fixed angle
parameter does not enter the diameter). -/
def default_sizes (scale : ℝ) : ℝ × ℝ :=
  (interpolate 0 scaleHi scale, barHeight)

/-- `StandingSticks._diameter`: diagonal of the bounding bar. -/
def diameter (scale : ℝ) : ℝ :=
  Real.sqrt ((default_sizes scale).1 ^ 2 + (default_sizes scale).2 ^ 2)

/-- `StandingSticks.diameter_to_default_scale`. -/
def diameter_to_default_scale (d : ℝ) : ℝ :=
  inverse_interpolate 0 scaleHi (Real.sqrt (d ^ 2 - barHeight ^ 2))

end StandingSticks

namespace Jar

/-- `Jar.BASE_RATIO = 0.8`. -/
def baseRatio : ℝ := 4/5

/-- `Jar.WIDTH_RATIO = 1 / 1.2`. -/
def widthRatio : ℝ := 5/6

/-- `Jar.SCALE_RANGE = [0, SCENE_WIDTH]`, upper end. -/
def scaleHi : ℝ := sceneWidth

/-- `Jar.thickness_from_height`. -/
def thickness_from_height (height : ℝ) : ℝ :=
  Real.log height / Real.log (3/10 * sceneWidth) * sceneWidth / 50

/-- The size dictionary produced by `Jar.default_sizes`. -/
structure Sizes where
  height : ℝ
  width : ℝ
  thickness : ℝ
  base_width : ℝ

/-- `Jar.default_sizes`. -/
def default_sizes (scale : ℝ) : Sizes :=
  let height := interpolate 0 scaleHi scale
  let width := height * widthRatio
  ⟨height, width, thickness_from_height height, width * baseRatio⟩

/-- `Jar._diameter`: diagonal from the outer base corner to the rim. -/
def diameter_of (s : Sizes) : ℝ :=
  let base := (s.width - s.base_width) / 2 + s.base_width
  Real.sqrt (base ^ 2 + s.height ^ 2)

/-- `Jar.diameter(scale=...)`. -/
def diameter (scale : ℝ) : ℝ := diameter_of (default_sizes scale)

/-- `Jar.diameter_to_default_scale`. -/
def diameter_to_default_scale (d : ℝ) : ℝ :=
  let base_to_width := (1 - baseRatio) / 2 + baseRatio
  let width_to_height := base_to_width * widthRatio
  inverse_interpolate 0 scaleHi (Real.sqrt (d ^ 2 / (1 + width_to_height ^ 2)))

/-- The three vertex lists (base box, left tilted edge, right tilted edge)
built by `Jar._build`.  `_build` wraps each list with
`vertices_to_polygon` (whose convexity assertion reads only these
vertices) and `center_of_mass`'s `undo_polygon` recovers exactly these
coordinate lists, so the polygon wrapper is dropped here. -/
def build_vertices (s : Sizes) : List (List (ℝ × ℝ)) :=
  let vertices : List (ℝ × ℝ) :=
    [(s.base_width / 2, s.thickness / 2),
      (-(s.base_width / 2), s.thickness / 2),
      (-(s.base_width / 2), -(s.thickness / 2)),
      (s.base_width / 2, -(s.thickness / 2))]
  let base := (s.width - s.base_width) / 2
  let hypotenuse := Real.sqrt (s.height ^ 2 + base ^ 2)
  let cos := base / hypotenuse
  let sin := s.height / hypotenuse
  let x_delta := s.thickness * sin
  let x_delta_top := s.thickness / sin
  let y_delta := s.thickness * cos
  let vertices_left : List (ℝ × ℝ) :=
    [(-(s.width / 2), s.height - s.thickness / 2),
      (-(s.base_width / 2), -(s.thickness / 2)),
      (-(s.base_width / 2) + x_delta, y_delta - s.thickness / 2),
      (-(s.width / 2) + x_delta_top, s.height - s.thickness / 2)]
  let vertices_right : List (ℝ × ℝ) :=
    [(s.width / 2, s.height - s.thickness / 2),
      (s.width / 2 - x_delta_top, s.height - s.thickness / 2),
      (s.base_width / 2 - x_delta, y_delta - s.thickness / 2),
      (s.base_width / 2, -(s.thickness / 2))]
  [vertices, vertices_left, vertices_right]

/-- The `l` lambda of `_triangle_centroid` inside `Jar.center_of_mass`:
euclidean distance between two points. -/
def pdist (p q : ℝ × ℝ) : ℝ := Real.sqrt ((p.1 - q.1) ^ 2 + (p.2 - q.2) ^ 2)

/-- `_triangle_centroid` local to `Jar.center_of_mass`: vertex mean and
the triangle's area by Heron's formula (`map(l, points, points[1:] +
points)` pairs the three cyclically consecutive vertex pairs). -/
def triangle_centroid (p₀ p₁ p₂ : ℝ × ℝ) : (ℝ × ℝ) × ℝ :=
  let x := (p₀.1 + p₁.1 + p₂.1) / 3
  let y := (p₀.2 + p₁.2 + p₂.2) / 3
  let a := pdist p₀ p₁
  let b := pdist p₁ p₂
  let c := pdist p₂ p₀
  let p := (a + b + c) / 2
  ((x, y), Real.sqrt (p * (p - a) * (p - b) * (p - c)))

/-- `_merge` local to `Jar.center_of_mass`: mass-weighted average of
centroids. -/
def merge_centroids (points : List (ℝ × ℝ)) (masses : List ℝ) :
    (ℝ × ℝ) × ℝ :=
  let mass := masses.sum
  ((((points.zip masses).map fun pm => pm.1.1 * pm.2 / mass).sum,
    ((points.zip masses).map fun pm => pm.1.2 * pm.2 / mass).sum), mass)

/-- `_4angle_centroid` local to `Jar.center_of_mass`: a quadrilateral
split into the two triangles `(p0, p1, p2)` and `(p0, p3, p2)`.  Every
jar polygon has exactly four vertices; a different arity would be an
index error in the source. -/
def four_angle_centroid : List (ℝ × ℝ) → (ℝ × ℝ) × ℝ
  | [q₀, q₁, q₂, q₃] =>
    let t₁ := triangle_centroid q₀ q₁ q₂
    let t₂ := triangle_centroid q₀ q₃ q₂
    merge_centroids [t₁.1, t₂.1] [t₁.2, t₂.2]
  | _ => ((0, 0), 0)

/-- `Jar.center_of_mass(diameter=...)`: build the three jar polygons from
the diameter (via `diameter_to_default_scale` and `default_sizes`, as
`build` does), take each polygon's quadrilateral centroid and mass, and
mass-average them.  The source finally asserts `abs(x) <= 1e-5` on the
computed value — a sanity check that reads nothing but the result — and
returns `(x, y)`. -/
def center_of_mass (diameter : ℝ) : ℝ × ℝ :=
  let s := default_sizes (diameter_to_default_scale diameter)
  let verticies := build_vertices s
  let centroids := verticies.map four_angle_centroid
  (merge_centroids (centroids.map Prod.fst) (centroids.map Prod.snd)).1

end Jar

end Phyre.Shapes

end

noncomputable section

namespace Phyre

/-- `simulation.PositionShift`. -/
inductive PositionShift
  | TO_CENTER_OF_MASS
  | FROM_CENTER_OF_MASS
deriving DecidableEq

/-- `FeaturizedObjects._ANGLE_INDEX`. -/
def ANGLE_INDEX : ℕ := 2

/-- `FeaturizedObjects._DIAMETER_INDEX`. -/
def DIAMETER_INDEX : ℕ := 3

/-- `FeaturizedObjects._SHAPE_START_INDEX`. -/
def SHAPE_START_INDEX : ℕ := 4

/-- The value of `scene_if.ShapeType.JAR`.  The generated Thrift enum is
not in the Python tree; the spec (§4.5) gives the one-hot shape order
ball, bar, jar, standing sticks, and `FeaturizedObjects.shapes` in
`simulation.py` recovers enum values from that block as `argmax + 1`, so
jar is 3. -/
def ShapeType_JAR : ℕ := 3

/-- One featurized object row: 14 floats. -/
abbrev ObjectRow := List ℝ

/-- The module-global mutable dict `simulation.DIAMETER_CENTERS`, mapping
a float diameter to a jar center-of-mass height, modelled as explicit
association-list state threaded through every call. -/
abbrev DiameterCenters := List (ℝ × ℝ)

/-- The value `_get_jar_offset` computes and caches for a diameter: the
`center_y` of `Jar.center_of_mass(diameter=diameter)`. -/
def jar_center_y (diameter : ℝ) : ℝ := (Shapes.Jar.center_of_mass diameter).2

open Classical in
/-- Dictionary lookup in the `DIAMETER_CENTERS` model: float keys compared
by equality, as `diameter not in DIAMETER_CENTERS` does. -/
def find_center : DiameterCenters → ℝ → Option ℝ
  | [], _ => none
  | (d, y) :: rest, q => if q = d then some y else find_center rest q

/-- `simulation._get_jar_offset`: scale the row's diameter feature by
`SCENE_WIDTH`; on a cache miss compute `Jar.center_of_mass` and store its
height in the dict, then return the dict entry.  The dict mutation is the
returned state. -/
def get_jar_offset (cache : DiameterCenters) (featurized_object : ObjectRow) :
    ℝ × DiameterCenters :=
  let diameter := featurized_object.getD DIAMETER_INDEX 0 * Shapes.sceneWidth
  match find_center cache diameter with
  | some y => (y, cache)
  | none => (jar_center_y diameter, (diameter, jar_center_y diameter) :: cache)

open Classical in
/-- The jar mask of `finalize_featurized_objects`:
`featurized_objects[:, :, _SHAPE_START_INDEX + ShapeType.JAR - 1] == 1`. -/
def is_jar_row (row : ObjectRow) : Bool :=
  decide (row.getD (SHAPE_START_INDEX + ShapeType_JAR - 1) 0 = 1)

/-- `np.apply_along_axis(_get_jar_offset, 1, rows)`: offsets of the rows
in order, the cache threaded left to right. -/
def jar_offsets : DiameterCenters → List ObjectRow → List ℝ × DiameterCenters
  | c, [] => ([], c)
  | c, r :: rs =>
    let oc := get_jar_offset c r
    let rest := jar_offsets oc.2 rs
    (oc.1 :: rest.1, rest.2)

/-- One frame of the fancy assignment
`featurized_objects[is_jar, :_ANGLE_INDEX] += directional_offsets`: each
jar row consumes the next offset pair and adds it to its x and y features;
other rows pass through; the remaining pairs flow to the following frames
(row-major order).  numpy requires exactly one pair per jar row and raises
otherwise — identically for identical inputs; the model passes a surplus
or shortfall through unchanged, which is likewise a function of the
inputs. -/
def add_row_offsets : List (ℝ × ℝ) → List ObjectRow → List ObjectRow × List (ℝ × ℝ)
  | ds, [] => ([], ds)
  | ds, r :: rs =>
    if is_jar_row r then
      match ds with
      | [] =>
        let rest := add_row_offsets [] rs
        (r :: rest.1, rest.2)
      | d :: tl =>
        let r2 : ObjectRow := match r with
          | x :: y :: tail => (x + d.1) :: (y + d.2) :: tail
          | other => other
        let rest := add_row_offsets tl rs
        (r2 :: rest.1, rest.2)
    else
      let rest := add_row_offsets ds rs
      (r :: rest.1, rest.2)

/-- The fancy assignment over all frames, row-major. -/
def add_offsets : List (ℝ × ℝ) → List (List ObjectRow) → List (List ObjectRow)
  | _, [] => []
  | ds, fr :: frs =>
    let res := add_row_offsets ds fr
    res.1 :: add_offsets res.2 frs

/-- `simulation.finalize_featurized_objects` on the reshaped `T x N x 14`
array, with the `DIAMETER_CENTERS` dict as explicit state: when some jar
row exists (`featurized_objects[is_jar].shape[0] > 0`), compute the
offsets of frame 0's jar rows through `_get_jar_offset` (mutating the
dict), tile them over all frames (`np.concatenate([offsets] * T)`), read
every jar row's angle times `2 * pi`, form the directional pairs
`(-1 * o * sin a, o * cos a) / SCENE_WIDTH * direction`, and add them to
the x/y features of the jar rows in row-major order; with no jar rows the
(copied) array is returned unchanged. -/
def finalize_featurized_objects (cache : DiameterCenters)
    (featurized_objects : List (List ObjectRow))
    (shift_direction : PositionShift) : List (List ObjectRow) × DiameterCenters :=
  let direction : ℝ :=
    if shift_direction = PositionShift.TO_CENTER_OF_MASS then 1 else -1
  let jar_rows := featurized_objects.flatMap fun fr => fr.filter is_jar_row
  if jar_rows.length = 0 then (featurized_objects, cache)
  else
    let oc := jar_offsets cache ((featurized_objects.headD []).filter is_jar_row)
    let offsets_expanded := (List.replicate featurized_objects.length oc.1).flatten
    let angles := jar_rows.map fun r => r.getD ANGLE_INDEX 0 * (2 * Real.pi)
    let directional_offsets := (offsets_expanded.zip angles).map fun oa =>
      (-1 * oa.1 * Real.sin oa.2 / Shapes.sceneWidth * direction,
        oa.1 * Real.cos oa.2 / Shapes.sceneWidth * direction)
    (add_offsets directional_offsets featurized_objects, oc.2)

/-- `phyre.simulator.magic_ponies` on a serialized (`bytes`) task and a
`scene_if.UserInput`, with `with_times=False`: call the native entry
point, reshape the packed image bytes to `(-1, height, width)` frames with
`height = width = 256` (the task is given as bytes), reshape the packed
features to `(-1, number_objects, OBJECT_FEATURE_SIZE)` (an empty packed
array yields the empty `(0, n, 14)` array), and post-process the features
with `finalize_featurized_objects`, threading the `DIAMETER_CENTERS`
state. -/
def magic_ponies (b : PoniesBinding) (cache : DiameterCenters)
    (task : List ℕ) (user_input : UserInput) (steps stride : ℕ)
    (keep_space_around_bodies need_images need_featurized_objects : Bool) :
    (Bool × Bool × List (List (List ℕ)) × List (List ObjectRow)) × DiameterCenters :=
  let raw := b.magic_ponies_general task (b.serialize user_input)
    keep_space_around_bodies steps stride need_images need_featurized_objects
  let images := chunk_list 256 (chunk_list 256 raw.packed_images)
  let fin := finalize_featurized_objects cache
    (chunk_list raw.number_objects
      (chunk_list OBJECT_FEATURE_SIZE raw.packed_featurized_objects))
    PositionShift.TO_CENTER_OF_MASS
  ((raw.is_solved, raw.had_occlusions, images, fin.1), fin.2)

/-- Invariant of the `DIAMETER_CENTERS` dict: every entry holds the jar
center height of its key.  The initial empty dict satisfies it, and
`_get_jar_offset` only ever writes `Jar.center_of_mass` values, so every
dict state the program can reach is coherent. -/
def coherent (c : DiameterCenters) : Prop := ∀ p ∈ c, p.2 = jar_center_y p.1

/-- A trivial native binding: never solves, packs empty arrays. -/
def constPoniesBinding : PoniesBinding :=
  ⟨fun _ _ _ _ _ _ _ => ⟨false, false, [], [], 0, 0, 0⟩, fun _ => []⟩

end Phyre

end

namespace Phyre

/-- The cross product test of `shapes.is_valid_convex_polygon` at a
consecutive vertex triple: with `a = p3 - p2` and `b = p1 - p2`, the value
`a.x * b.y - a.y * b.x`. -/
def cross_at (p1 p2 p3 : Vector) : ℚ :=
  (p3.x - p2.x) * (p1.y - p2.y) - (p3.y - p2.y) * (p1.x - p2.x)

/-- `shapes.is_valid_convex_polygon`: at least three points and a strictly
positive cross product at every consecutive triple of the looped list. -/
def is_valid_convex_polygon (points : List Vector) : Bool :=
  if points.length < 3 then false
  else
    let lp := points ++ points.take 2
    (lp.zip ((lp.drop 1).zip (lp.drop 2))).all fun t =>
      decide (0 < cross_at t.1 t.2.1 t.2.2)

/-- A polygonal `scene_if.Shape`. -/
structure Shape where
  polygon : List Vector
deriving DecidableEq

/-- `shapes.vertices_to_polygon`: builds the shape and then asserts
`is_valid_convex_polygon`; the assertion failure is modelled as `none`. -/
def vertices_to_polygon (vertices : List Vector) : Option Shape :=
  if is_valid_convex_polygon vertices then some ⟨vertices⟩ else none

/-- `task_if.SpatialRelationship`; the generated Thrift enum is not in the
Python tree, its constructors are modelled from the spec (§3). -/
inductive SpatialRelationship
  | NONE
  | ABOVE
  | LEFT_OF
  | RIGHT_OF
  | TOUCHING
  | INSIDE
deriving DecidableEq

/-- A body as `TaskCreator.update_task` sees it: its identity within
`body_list` and its `dynamic` flag. -/
structure Body where
  id : ℕ
  dynamic : Bool
deriving DecidableEq

/-- The task fields written by `TaskCreator.update_task`. -/
structure TaskGoal where
  relationships : List SpatialRelationship
  bodyId1 : ℕ
  bodyId2 : ℕ
deriving DecidableEq

/-- `TaskCreator.update_task`, restricted to the task fields it stores:
the two assertions (at least one dynamic body, exactly one relationship)
and a missing body in `body_list.index` are modelled as `none`; `LEFT_OF`
is replaced by `RIGHT_OF` with the bodies swapped; the recoloring and
description bookkeeping touch neither `relationships` nor the body ids. -/
def update_task (body_list : List Body) (body1 body2 : Body)
    (relationships : List SpatialRelationship) : Option TaskGoal :=
  if ¬ (body1.dynamic || body2.dynamic) then none
  else
    match relationships with
    | [r] =>
      let t : SpatialRelationship × Body × Body :=
        if r = SpatialRelationship.LEFT_OF then
          (SpatialRelationship.RIGHT_OF, body2, body1)
        else (r, body1, body2)
      match body_list.indexOf? t.2.1, body_list.indexOf? t.2.2 with
      | some i1, some i2 => some ⟨[t.1], i1, i2⟩
      | _, _ => none
    | _ => none

/-- An oracle for the native simulation whose answers do not depend on the
user input: no occlusions, fixed solved flag, empty arrays. -/
def constOracle (solved : Bool) : SimOracle :=
  ⟨fun _ _ => false, fun _ _ _ _ _ => ⟨solved, false, [], []⟩⟩

/-- An oracle that reports an occlusion exactly when the dilation margin is
requested, and otherwise behaves like `constOracle true`. -/
def marginSensitiveOracle : SimOracle :=
  ⟨fun _ keep => keep, fun _ _ _ _ _ => ⟨true, false, [], []⟩⟩

/-- A coherent dict answers every lookup hit with the jar center height of
the queried key. -/
theorem find_center_coherent (c : DiameterCenters) (hc : coherent c)
    (q y : ℝ) (h : find_center c q = some y) : y = jar_center_y q := by
  induction c with
  | nil => simp [find_center] at h
  | cons p rest ih =>
    rcases p with ⟨d, v⟩
    rw [find_center] at h
    split_ifs at h with he
    · cases h
      subst he
      exact hc (q, y) (by simp)
    · exact ih (fun p hp => hc p (List.mem_cons_of_mem _ hp)) h

/-- On a coherent dict, `_get_jar_offset` returns the jar center height of
the row's scaled diameter — whether it hits the cache or computes — and
leaves the dict coherent. -/
theorem get_jar_offset_spec (c : DiameterCenters) (hc : coherent c)
    (row : ObjectRow) :
    (get_jar_offset c row).1 =
      jar_center_y (row.getD DIAMETER_INDEX 0 * Shapes.sceneWidth) ∧
    coherent (get_jar_offset c row).2 := by
  rw [get_jar_offset]
  rcases hf : find_center c (row.getD DIAMETER_INDEX 0 * Shapes.sceneWidth)
    with _ | y
  · simp only [hf]
    refine ⟨trivial, ?_⟩
    intro p hp
    rcases List.mem_cons.mp hp with hp | hp
    · subst hp
      rfl
    · exact hc p hp
  · simp only [hf]
    exact ⟨find_center_coherent c hc _ y hf, hc⟩

/-- On a coherent dict, the offsets of a row list are a pure function of
the rows, and the dict stays coherent. -/
theorem jar_offsets_spec (rows : List ObjectRow) :
    ∀ c : DiameterCenters, coherent c →
      (jar_offsets c rows).1 = rows.map
        (fun r => jar_center_y (r.getD DIAMETER_INDEX 0 * Shapes.sceneWidth)) ∧
      coherent (jar_offsets c rows).2 := by
  induction rows with
  | nil =>
    intro c hc
    exact ⟨rfl, hc⟩
  | cons r rs ih =>
    intro c hc
    have h1 := get_jar_offset_spec c hc r
    have h2 := ih _ h1.2
    rw [jar_offsets]
    exact ⟨by dsimp only; rw [h1.1, h2.1, List.map_cons], h2.2⟩

/-- On coherent dicts, `finalize_featurized_objects` returns the same
array regardless of the incoming dict state, and leaves the dict
coherent. -/
theorem finalize_cache_independent (c c' : DiameterCenters)
    (hc : coherent c) (hc' : coherent c')
    (arr : List (List ObjectRow)) (dir : PositionShift) :
    (finalize_featurized_objects c arr dir).1 =
      (finalize_featurized_objects c' arr dir).1 ∧
    coherent (finalize_featurized_objects c arr dir).2 := by
  have h1 := jar_offsets_spec ((arr.headD []).filter is_jar_row) c hc
  have h2 := jar_offsets_spec ((arr.headD []).filter is_jar_row) c' hc'
  by_cases hjar : (arr.flatMap fun fr => fr.filter is_jar_row).length = 0
  · simp only [finalize_featurized_objects, if_pos hjar]
    exact ⟨trivial, hc⟩
  · simp only [finalize_featurized_objects, if_neg hjar]
    refine ⟨?_, h1.2⟩
    rw [h1.1, h2.1]

/-- C1: two calls of `magic_ponies` with identical arguments return
identical results — the same `is_solved` and `had_occlusions` booleans,
byte-identical image arrays and byte-identical featurized-object arrays —
from any two coherent states of the global `DIAMETER_CENTERS` dict (the
initial empty dict is coherent, and every dict state the program reaches
is: `_get_jar_offset` only writes `Jar.center_of_mass` values).  In
particular the second of two consecutive calls, which sees the dict
entries written by the first, returns the same tuple, and the dict stays
coherent.  The native C++ entry point is a function of its arguments per
the spec (§4.3, §8); the in-source wrapper and post-processing, including
the cache, are embedded above. -/
theorem magic_ponies_deterministic (b : PoniesBinding)
    (c c' : DiameterCenters) (hc : coherent c) (hc' : coherent c')
    (task : List ℕ) (user_input : UserInput) (steps stride : ℕ)
    (keep ni no : Bool) :
    (magic_ponies b c task user_input steps stride keep ni no).1.1 =
      (magic_ponies b c' task user_input steps stride keep ni no).1.1 ∧
    (magic_ponies b c task user_input steps stride keep ni no).1.2.1 =
      (magic_ponies b c' task user_input steps stride keep ni no).1.2.1 ∧
    (magic_ponies b c task user_input steps stride keep ni no).1.2.2.1 =
      (magic_ponies b c' task user_input steps stride keep ni no).1.2.2.1 ∧
    (magic_ponies b c task user_input steps stride keep ni no).1.2.2.2 =
      (magic_ponies b c' task user_input steps stride keep ni no).1.2.2.2 ∧
    coherent (magic_ponies b c task user_input steps stride keep ni no).2 := by
  have hfin := finalize_cache_independent c c' hc hc'
    (chunk_list (b.magic_ponies_general task (b.serialize user_input)
        keep steps stride ni no).number_objects
      (chunk_list OBJECT_FEATURE_SIZE
        (b.magic_ponies_general task (b.serialize user_input)
          keep steps stride ni no).packed_featurized_objects))
    PositionShift.TO_CENTER_OF_MASS
  simp only [magic_ponies]
  exact ⟨trivial, trivial, trivial, hfin.1, hfin.2⟩

/-- Closed instance of C1: the trivial binding queried from the empty dict
and from a dict that already holds the jar entry for diameter 1 produces
byte-identical featurized-object arrays. -/
theorem magic_ponies_deterministic_witness :
    (magic_ponies constPoniesBinding [] [] EMPTY_USER_INPUT
        1000 60 true true true).1.2.2.2 =
      (magic_ponies constPoniesBinding [(1, jar_center_y 1)] [] EMPTY_USER_INPUT
        1000 60 true true true).1.2.2.2 :=
  (magic_ponies_deterministic constPoniesBinding [] [(1, jar_center_y 1)]
    (by intro p hp; simp at hp)
    (by intro p hp; simp at hp; subst hp; rfl)
    [] EMPTY_USER_INPUT 1000 60 true true true).2.2.2.1

/-- C3 counterexample: the ramp (freehand) tier does NOT enable the
keep-space margin; `RampActionMapper.KEEP_SPACE_AROUND_BODIES` is `False`
(`action_mappers.py` line 295). -/
theorem ramp_margin_disabled_cex :
    (RampActionMapper fun _ => (EMPTY_USER_INPUT, false)).keep_space_around_bodies
      = false := rfl

/-- C3 amended: every concrete action tier (single ball, two balls, ramp)
overrides the base-class default `KEEP_SPACE_AROUND_BODIES = True` with
`False`, and `_simulate_user_input` consults the native occlusion check and
simulation only with that (disabled) margin: two oracles that agree with
the margin disabled are indistinguishable to any tier whose flag is
`false`. -/
theorem keep_space_margin_all_tiers :
    SingleBallActionMapper.keep_space_around_bodies = false ∧
    TwoBallsActionMapper.keep_space_around_bodies = false ∧
    (∀ toUI : RampAction → UserInput × Bool,
      (RampActionMapper toUI).keep_space_around_bodies = false) ∧
    ActionMapper.default_keep_space = true ∧
    (∀ (α : Type) (m : ActionMapper α) (o₁ o₂ : SimOracle),
      m.keep_space_around_bodies = false →
      (∀ ui, o₁.check_for_occlusions ui false = o₂.check_for_occlusions ui false) →
      (∀ ui s b₁ b₂, o₁.magic_ponies ui s false b₁ b₂ =
        o₂.magic_ponies ui s false b₁ b₂) →
      ∀ ui ni no stride, simulate_user_input m o₁ ui ni no stride =
        simulate_user_input m o₂ ui ni no stride) := by
  refine ⟨rfl, rfl, fun _ => rfl, rfl, ?_⟩
  intro α m o₁ o₂ hkeep hcheck hponies ui ni no stride
  simp only [simulate_user_input, hkeep, hcheck, hponies]

/-- Closed instance of the amended C3 statement: the constant oracle and
the margin-sensitive oracle agree with the margin disabled, so the
single-ball tier cannot tell them apart. -/
theorem keep_space_margin_all_tiers_witness :
    simulate_user_input SingleBallActionMapper (constOracle true)
        EMPTY_USER_INPUT true true 1 =
      simulate_user_input SingleBallActionMapper marginSensitiveOracle
        EMPTY_USER_INPUT true true 1 :=
  keep_space_margin_all_tiers.2.2.2.2 SingleBallAction SingleBallActionMapper
    (constOracle true) marginSensitiveOracle rfl (fun _ => rfl)
    (fun _ _ _ _ => rfl) EMPTY_USER_INPUT true true 1

/-- C6 counterexample: `Ball._diameter` truncates the radius with Python
`int()`, so at radius `5/2` it returns `2 * (2 + 0.5) = 5`, while the
claimed formula `2 * (radius + 0.5)` gives `6`. -/
theorem ball_diameter_formula_cex :
    Shapes.Ball.diameter_of_radius (5/2) = 5 ∧
    2 * ((5/2 : ℝ) + 1/2) = 6 ∧ (5 : ℝ) ≠ 6 := by
  have hfloor : ⌊(5/2 : ℝ)⌋ = 2 := by
    rw [Int.floor_eq_iff]
    constructor <;> norm_num
  refine ⟨?_, by norm_num, by norm_num⟩
  rw [Shapes.Ball.diameter_of_radius, Shapes.pyIntR, if_pos (by norm_num), hfloor,
    Shapes.Ball.rasterizationBuffer]
  norm_num

/-- C6 amended: for every nonnegative radius the ball diameter is
`2 * (int(radius) + 0.5)` with the radius truncated to an integer, the
stored circle radius is `int(radius) + 0.5` (the rasterization-stability
offset), and the claimed formula `2 * (radius + 0.5)` holds exactly when
the radius is an integer. -/
theorem ball_diameter_truncated (r : ℝ) (hr : 0 ≤ r) :
    Shapes.Ball.diameter_of_radius r = 2 * ((⌊r⌋ : ℝ) + 1/2) ∧
    Shapes.Ball.build_radius r = (⌊r⌋ : ℝ) + 1/2 ∧
    (∀ n : ℤ, r = (n : ℝ) → Shapes.Ball.diameter_of_radius r = 2 * (r + 1/2)) := by
  have hint : Shapes.pyIntR r = ⌊r⌋ := if_pos hr
  refine ⟨?_, ?_, ?_⟩
  · rw [Shapes.Ball.diameter_of_radius, hint, Shapes.Ball.rasterizationBuffer]
  · rw [Shapes.Ball.build_radius, hint, Shapes.Ball.rasterizationBuffer]
  · intro n hn
    rw [Shapes.Ball.diameter_of_radius, hint, Shapes.Ball.rasterizationBuffer, hn]
    rw [Int.floor_intCast]

/-- Closed instance of the amended C6 statement at the integer radius 3. -/
theorem ball_diameter_truncated_witness :
    Shapes.Ball.diameter_of_radius 3 = 2 * ((3 : ℝ) + 1/2) :=
  (ball_diameter_truncated 3 (by norm_num)).2.2 3 (by norm_num)

/-- C9: `update_task` called with the single relationship `LEFT_OF` stores
`RIGHT_OF` with the two body indices swapped (`bodyId1` is the index of
`body2` and `bodyId2` the index of `body1`), and no call of `update_task`
ever stores `LEFT_OF`. -/
theorem update_task_left_of_normalized :
    (∀ (body_list : List Body) (body1 body2 : Body) (g : TaskGoal),
      update_task body_list body1 body2 [SpatialRelationship.LEFT_OF] = some g →
      g.relationships = [SpatialRelationship.RIGHT_OF] ∧
      body_list.indexOf? body2 = some g.bodyId1 ∧
      body_list.indexOf? body1 = some g.bodyId2) ∧
    (∀ (body_list : List Body) (body1 body2 : Body)
      (rels : List SpatialRelationship) (g : TaskGoal),
      update_task body_list body1 body2 rels = some g →
      SpatialRelationship.LEFT_OF ∉ g.relationships) := by
  constructor
  · intro body_list body1 body2 g h
    rw [update_task] at h
    split at h
    · exact absurd h (by simp)
    · rcases h1 : body_list.indexOf? body2 with _ | i1 <;>
        rcases h2 : body_list.indexOf? body1 with _ | i2 <;>
        simp [h1, h2] at h
      subst h
      exact ⟨rfl, rfl, rfl⟩
  · intro body_list body1 body2 rels g h
    rcases rels with _ | ⟨r, _ | ⟨r2, rest⟩⟩
    · rw [update_task] at h
      split at h
      · exact absurd h (by simp)
      · exact absurd h (by simp)
      · simp
    · rw [update_task] at h
      split at h
      · exact absurd h (by simp)
      · by_cases hr : r = SpatialRelationship.LEFT_OF
        · rcases h1 : body_list.indexOf? body2 with _ | i1 <;>
            rcases h2 : body_list.indexOf? body1 with _ | i2 <;>
            simp [hr, h1, h2] at h
          subst h
          simp
        · rcases h1 : body_list.indexOf? body1 with _ | i1 <;>
            rcases h2 : body_list.indexOf? body2 with _ | i2 <;>
            simp [hr, h1, h2] at h
          subst h
          simp only [List.mem_singleton]
          exact fun hc => hr hc.symm
    · rw [update_task] at h
      split at h
      · exact absurd h (by simp)
      · exact absurd h (by simp)
      · simp

/-- A simulation status is `is_not_solved` exactly when it is `NOT_SOLVED`. -/
theorem is_not_solved_iff (s : SimulationStatus) :
    s.is_not_solved = true ↔ s = SimulationStatus.NOT_SOLVED := by
  cases s <;> simp [SimulationStatus.is_not_solved]

/-- The radius produced by the ball scaler: `pyScale r MIN_RADIUS MAX_RADIUS`. -/
theorem ball_scaler_radius (x y r : ℚ) :
    (BallScaler.circle x y r).radius = 30 * r + 2 := by
  simp [BallScaler.circle, BallScaler.scale, pyScale, BallScaler.MIN_RADIUS,
    BallScaler.MAX_RADIUS]
  ring

/-- C4: a two-ball action inside the unit box whose scaled balls overlap
(center distance below the sum of radii, stated on squares) is rejected by
the action mapper with the empty user input and `is_valid = false`; hence
`simulate_action` reports `INVALID_INPUT` with no images and no objects for
every oracle, without the occlusion check or the simulation ever being
consulted. -/
theorem two_balls_overlap_rejected (a : TwoBallsAction)
    (hunit : in_unit_box a.components = true)
    (hdist : dist_sq (BallScaler.circle a.x1 a.y1 a.r1).position
        (BallScaler.circle a.x2 a.y2 a.r2).position <
      ((BallScaler.circle a.x1 a.y1 a.r1).radius +
        (BallScaler.circle a.x2 a.y2 a.r2).radius) ^ 2) :
    two_balls_action_to_user_input a = (EMPTY_USER_INPUT, false) ∧
    ∀ (o : SimOracle) (ni no : Bool) (stride : ℕ) (stable : Bool),
      simulate_action TwoBallsActionMapper o a ni no stride stable =
        ⟨SimulationStatus.INVALID_INPUT, none, none⟩ := by
  have hr1 : 0 ≤ a.r1 := by
    simp [in_unit_box, TwoBallsAction.components] at hunit
    exact hunit.2.2.1.1
  have hr2 : 0 ≤ a.r2 := by
    simp [in_unit_box, TwoBallsAction.components] at hunit
    exact hunit.2.2.2.2.2.1
  have hsum : 0 ≤ (BallScaler.circle a.x1 a.y1 a.r1).radius +
      (BallScaler.circle a.x2 a.y2 a.r2).radius := by
    rw [ball_scaler_radius, ball_scaler_radius]
    linarith
  have hlt : dist_sq (BallScaler.circle a.x1 a.y1 a.r1).position
      (BallScaler.circle a.x2 a.y2 a.r2).position <
      ((BallScaler.circle a.x1 a.y1 a.r1).radius +
        (BallScaler.circle a.x2 a.y2 a.r2).radius + 1) ^ 2 := by
    nlinarith [hdist, hsum]
  have key : two_balls_action_to_user_input a = (EMPTY_USER_INPUT, false) := by
    by_cases hin : is_inside_scene
        ⟨[], [BallScaler.circle a.x1 a.y1 a.r1,
          BallScaler.circle a.x2 a.y2 a.r2], []⟩ = true
    · simp [two_balls_action_to_user_input, hunit, hin, hlt]
    · simp [two_balls_action_to_user_input, hunit, hin]
  refine ⟨key, ?_⟩
  intro o ni no stride stable
  simp [simulate_action, TwoBallsActionMapper, key]

/-- Closed instance of C4 at two coincident balls of minimal size. -/
theorem two_balls_overlap_rejected_witness :
    two_balls_action_to_user_input ⟨3/10, 1/2, 0, 3/10, 1/2, 0⟩ =
      (EMPTY_USER_INPUT, false) :=
  (two_balls_overlap_rejected ⟨3/10, 1/2, 0, 3/10, 1/2, 0⟩
    (by norm_num [in_unit_box, TwoBallsAction.components])
    (by norm_num [dist_sq, BallScaler.circle, BallScaler.scale, pyScale,
      BallScaler.MIN_RADIUS, BallScaler.MAX_RADIUS, SCENE_WIDTH,
      SCENE_HEIGHT])).1

/-- A two-ball action whose scaled balls are 4.5 pixels apart while both
radii scale to 2: not overlapping, yet rejected. -/
def gapAction : TwoBallsAction := ⟨100/255, 128/255, 0, 209/510, 128/255, 0⟩

/-- The first scaled ball of `gapAction`. -/
def gapBall1 : CircleWithPosition :=
  BallScaler.circle gapAction.x1 gapAction.y1 gapAction.r1

/-- The second scaled ball of `gapAction`. -/
def gapBall2 : CircleWithPosition :=
  BallScaler.circle gapAction.x2 gapAction.y2 gapAction.r2

/-- C10: every action the two-balls mapper accepts keeps the
pre-quantization center distance at least `r1 + r2 + 1` (stated on
squares), one full pixel beyond mere non-overlap; and the concrete
in-bounds action `gapAction`, whose balls are separated by at least
`r1 + r2` but by less than `r1 + r2 + 1`, is rejected. -/
theorem two_balls_distance_gap :
    (∀ a : TwoBallsAction, (two_balls_action_to_user_input a).2 = true →
      ((BallScaler.circle a.x1 a.y1 a.r1).radius +
        (BallScaler.circle a.x2 a.y2 a.r2).radius + 1) ^ 2 ≤
        dist_sq (BallScaler.circle a.x1 a.y1 a.r1).position
          (BallScaler.circle a.x2 a.y2 a.r2).position) ∧
    in_unit_box gapAction.components = true ∧
    is_inside_scene ⟨[], [gapBall1, gapBall2], []⟩ = true ∧
    (gapBall1.radius + gapBall2.radius) ^ 2 ≤
      dist_sq gapBall1.position gapBall2.position ∧
    dist_sq gapBall1.position gapBall2.position <
      (gapBall1.radius + gapBall2.radius + 1) ^ 2 ∧
    (two_balls_action_to_user_input gapAction).2 = false := by
  have hunit : in_unit_box gapAction.components = true := by
    norm_num [in_unit_box, TwoBallsAction.components, gapAction]
  have hin : is_inside_scene ⟨[], [gapBall1, gapBall2], []⟩ = true := by
    norm_num [is_inside_scene, are_points_inside, to_points, gapBall1,
      gapBall2, gapAction, BallScaler.circle, BallScaler.scale, pyScale,
      BallScaler.MIN_RADIUS, BallScaler.MAX_RADIUS, SCENE_WIDTH, SCENE_HEIGHT]
  have hlow : (gapBall1.radius + gapBall2.radius) ^ 2 ≤
      dist_sq gapBall1.position gapBall2.position := by
    norm_num [dist_sq, gapBall1, gapBall2, gapAction, BallScaler.circle,
      BallScaler.scale, pyScale, BallScaler.MIN_RADIUS, BallScaler.MAX_RADIUS,
      SCENE_WIDTH, SCENE_HEIGHT]
  have hhigh : dist_sq gapBall1.position gapBall2.position <
      (gapBall1.radius + gapBall2.radius + 1) ^ 2 := by
    norm_num [dist_sq, gapBall1, gapBall2, gapAction, BallScaler.circle,
      BallScaler.scale, pyScale, BallScaler.MIN_RADIUS, BallScaler.MAX_RADIUS,
      SCENE_WIDTH, SCENE_HEIGHT]
  have hrej : (two_balls_action_to_user_input gapAction).2 = false := by
    norm_num [two_balls_action_to_user_input, in_unit_box,
      TwoBallsAction.components, is_inside_scene, are_points_inside,
      to_points, dist_sq, BallScaler.circle, BallScaler.scale, pyScale,
      BallScaler.MIN_RADIUS, BallScaler.MAX_RADIUS, SCENE_WIDTH, SCENE_HEIGHT,
      gapAction]
  refine ⟨?_, hunit, hin, hlow, hhigh, hrej⟩
  intro a h
  simp only [two_balls_action_to_user_input] at h
  split_ifs at h with h1 h2 h3
  exact not_lt.mp h3

/-- Closed instance of the universal part of C10 at an accepted action
whose balls are 150 pixels apart. -/
theorem two_balls_distance_gap_witness :
    ((BallScaler.circle (50/255) (128/255) 0).radius +
      (BallScaler.circle (200/255) (128/255) 0).radius + 1) ^ 2 ≤
      dist_sq (BallScaler.circle (50/255) (128/255) 0).position
        (BallScaler.circle (200/255) (128/255) 0).position := by
  have hacc : (two_balls_action_to_user_input
      ⟨50/255, 128/255, 0, 200/255, 128/255, 0⟩).2 = true := by
    norm_num [two_balls_action_to_user_input, in_unit_box,
      TwoBallsAction.components, is_inside_scene, are_points_inside,
      to_points, dist_sq, BallScaler.circle, BallScaler.scale, pyScale,
      BallScaler.MIN_RADIUS, BallScaler.MAX_RADIUS, SCENE_WIDTH, SCENE_HEIGHT]
  exact two_balls_distance_gap.1 ⟨50/255, 128/255, 0, 200/255, 128/255, 0⟩ hacc

/-- Case split for `_simulate_user_input`: the result is either the
`INVALID_INPUT` triple with no arrays, or its status is `SOLVED` or
`NOT_SOLVED`. -/
theorem simulate_user_input_status {α : Type} (m : ActionMapper α) (o : SimOracle)
    (ui : UserInput) (ni no : Bool) (stride : ℕ) :
    simulate_user_input m o ui ni no stride =
      (SimulationStatus.INVALID_INPUT, none, none) ∨
    (simulate_user_input m o ui ni no stride).1 = SimulationStatus.SOLVED ∨
    (simulate_user_input m o ui ni no stride).1 = SimulationStatus.NOT_SOLVED := by
  rw [simulate_user_input]
  split
  · exact Or.inl rfl
  · right
    dsimp only
    split <;> split
    · exact Or.inl rfl
    · exact Or.inr rfl
    · exact Or.inl rfl
    · exact Or.inr rfl

/-- C7: whenever `simulate_action` returns a `Simulation` whose status is
`INVALID_INPUT` (rejected action or occluding user input), the returned
`Simulation` has `images = None` and `featurized_objects = None`; no
exception is involved (the embedding is a total function). -/
theorem invalid_input_has_no_arrays {α : Type} (m : ActionMapper α)
    (o : SimOracle) (a : α) (ni no : Bool) (stride : ℕ) (stable : Bool)
    (h : (simulate_action m o a ni no stride stable).status =
      SimulationStatus.INVALID_INPUT) :
    (simulate_action m o a ni no stride stable).images = none ∧
    (simulate_action m o a ni no stride stable).featurized_objects = none := by
  rcases hr : m.action_to_user_input a with ⟨ui, valid⟩
  cases valid
  · simp [simulate_action, hr]
  · rcases simulate_user_input_status m o ui ni no stride with hs | hs | hs
    · simp [simulate_action, hr, hs, SimulationStatus.is_solved]
    · exfalso
      cases stable
      · simp [simulate_action, hr, hs, SimulationStatus.is_solved] at h
      · by_cases hany : ((yield_user_input_neighborhood ui).any fun n =>
            (simulate_user_input m o n false false stride).1.is_not_solved) = true
        · simp [simulate_action, hr, hs, hany, SimulationStatus.is_solved] at h
        · simp [simulate_action, hr, hs, hany, SimulationStatus.is_solved] at h
    · exfalso
      simp [simulate_action, hr, hs, SimulationStatus.is_solved] at h

/-- Closed instance of C7 at an out-of-range single-ball action. -/
theorem invalid_input_has_no_arrays_witness :
    (simulate_action SingleBallActionMapper (constOracle true) ⟨2, 0, 0⟩
      true true 1 false).images = none ∧
    (simulate_action SingleBallActionMapper (constOracle true) ⟨2, 0, 0⟩
      true true 1 false).featurized_objects = none := by
  have h : (simulate_action SingleBallActionMapper (constOracle true) ⟨2, 0, 0⟩
      true true 1 false).status = SimulationStatus.INVALID_INPUT := by
    norm_num [simulate_action, SingleBallActionMapper,
      single_ball_action_to_user_input, in_unit_box,
      SingleBallAction.components]
  exact invalid_input_has_no_arrays SingleBallActionMapper (constOracle true)
    ⟨2, 0, 0⟩ true true 1 false h

/-- C2: for a valid action whose base simulation is solved,
`simulate_action` with `stable = true` returns `STABLY_SOLVED` exactly when
none of the eight shifted user inputs simulates to `NOT_SOLVED` (an
`INVALID_INPUT` neighbor, in particular, never downgrades the result),
returns `UNSTABLY_SOLVED` otherwise, never returns plain `SOLVED`, and the
neighborhood consists of exactly the eight `(dx, dy)`-shifts with
`dx, dy ∈ {-0.5, 0, 0.5}`, excluding `dx = dy = 0`. -/
theorem stable_simulation_characterization {α : Type} (m : ActionMapper α)
    (o : SimOracle) (a : α) (ui : UserInput) (ni no : Bool) (stride : ℕ)
    (hvalid : m.action_to_user_input a = (ui, true))
    (hsolved : (simulate_user_input m o ui ni no stride).1 =
      SimulationStatus.SOLVED) :
    ((simulate_action m o a ni no stride true).status =
        SimulationStatus.STABLY_SOLVED ↔
      ∀ n ∈ yield_user_input_neighborhood ui,
        (simulate_user_input m o n false false stride).1 ≠
          SimulationStatus.NOT_SOLVED) ∧
    ((simulate_action m o a ni no stride true).status =
        SimulationStatus.STABLY_SOLVED ∨
      (simulate_action m o a ni no stride true).status =
        SimulationStatus.UNSTABLY_SOLVED) ∧
    (simulate_action m o a ni no stride true).status ≠
      SimulationStatus.SOLVED ∧
    yield_user_input_neighborhood ui =
      [shift_user_input (-(1/2)) (-(1/2)) ui, shift_user_input (-(1/2)) 0 ui,
        shift_user_input (-(1/2)) (1/2) ui, shift_user_input 0 (-(1/2)) ui,
        shift_user_input 0 (1/2) ui, shift_user_input (1/2) (-(1/2)) ui,
        shift_user_input (1/2) 0 ui, shift_user_input (1/2) (1/2) ui] := by
  have hnb : yield_user_input_neighborhood ui =
      [shift_user_input (-(1/2)) (-(1/2)) ui, shift_user_input (-(1/2)) 0 ui,
        shift_user_input (-(1/2)) (1/2) ui, shift_user_input 0 (-(1/2)) ui,
        shift_user_input 0 (1/2) ui, shift_user_input (1/2) (-(1/2)) ui,
        shift_user_input (1/2) 0 ui, shift_user_input (1/2) (1/2) ui] := by
    norm_num [yield_user_input_neighborhood, neighbor_deltas]
  by_cases hany : ((yield_user_input_neighborhood ui).any fun n =>
      (simulate_user_input m o n false false stride).1.is_not_solved) = true
  · have hres : (simulate_action m o a ni no stride true).status =
        SimulationStatus.UNSTABLY_SOLVED := by
      simp [simulate_action, hvalid, hsolved, hany, SimulationStatus.is_solved]
    obtain ⟨n, hn, hp⟩ := List.any_eq_true.mp hany
    refine ⟨⟨fun hst => ?_, fun hall => ?_⟩, Or.inr hres, ?_, hnb⟩
    · rw [hres] at hst
      cases hst
    · exact absurd ((is_not_solved_iff _).mp hp) (hall n hn)
    · rw [hres]
      intro hc
      cases hc
  · have hres : (simulate_action m o a ni no stride true).status =
        SimulationStatus.STABLY_SOLVED := by
      simp [simulate_action, hvalid, hsolved, hany, SimulationStatus.is_solved]
    refine ⟨⟨fun _ => ?_, fun _ => hres⟩, Or.inl hres, ?_, hnb⟩
    · intro n hn hne
      exact hany (List.any_eq_true.mpr ⟨n, hn, (is_not_solved_iff _).mpr hne⟩)
    · rw [hres]
      intro hc
      cases hc

/-- Closed instance of C2: with an oracle that always solves, the centered
half-size single-ball action is reported `STABLY_SOLVED`. -/
theorem stable_simulation_characterization_witness :
    (simulate_action SingleBallActionMapper (constOracle true)
      ⟨1/2, 1/2, 1/2⟩ true false 60 true).status =
      SimulationStatus.STABLY_SOLVED := by
  have hvalid : SingleBallActionMapper.action_to_user_input ⟨1/2, 1/2, 1/2⟩ =
      (⟨[], [⟨⟨127, 127⟩, 17⟩], []⟩, true) := by
    norm_num [SingleBallActionMapper, single_ball_action_to_user_input,
      in_unit_box, SingleBallAction.components, is_inside_scene,
      are_points_inside, to_points, BallScaler.circle, BallScaler.scale,
      pyScale, BallScaler.MIN_RADIUS, BallScaler.MAX_RADIUS, SCENE_WIDTH,
      SCENE_HEIGHT, quantize_user_input, pyInt, pyRound]
  have hsolved : (simulate_user_input SingleBallActionMapper (constOracle true)
      (⟨[], [⟨⟨127, 127⟩, 17⟩], []⟩ : UserInput) true false 60).1 =
      SimulationStatus.SOLVED := by
    norm_num [simulate_user_input, SingleBallActionMapper, constOracle]
  refine (stable_simulation_characterization SingleBallActionMapper
    (constOracle true) ⟨1/2, 1/2, 1/2⟩ ⟨[], [⟨⟨127, 127⟩, 17⟩], []⟩
    true false 60 hvalid hsolved).1.mpr ?_
  intro n _
  simp [simulate_user_input, SingleBallActionMapper, constOracle]

end Phyre

noncomputable section

namespace Phyre.Shapes

/-- Inverse interpolation on the range `[0, 256]` is division by 256. -/
theorem inverse_interpolate_0_256 (v : ℝ) :
    inverse_interpolate 0 256 v = v / 256 := by
  rw [inverse_interpolate]
  norm_num

/-- Inverse interpolation on the ball range `[0, 256 / 2]` is division
by 128. -/
theorem inverse_interpolate_0_128 (v : ℝ) :
    inverse_interpolate 0 (256 / 2) v = v / 128 := by
  rw [inverse_interpolate]
  norm_num

/-- C5 counterexample: the diameter round trip is not the identity for the
Ball builder: at scale `1/256` the radius `1/2` is truncated to `0` by
`Ball._build`/`Ball._diameter`, and the recovered scale is `0`, off by
`1/256` — far beyond floating tolerance. -/
theorem diameter_round_trip_cex :
    Shapes.Ball.diameter_to_default_scale (Shapes.Ball.diameter (1/256)) = 0 ∧
    ((1:ℝ)/256) ≠ 0 := by
  constructor
  · have h1 : Shapes.Ball.diameter (1/256) = 1 := by
      simp only [Ball.diameter, Ball.diameter_of_radius, Ball.default_sizes,
        Ball.scaleLo, Ball.scaleHi, sceneWidth, interpolate, pyIntR,
        Ball.rasterizationBuffer]
      have e : ((1:ℝ) - 1/256) * 0 + (1/256) * (256/2) = 1/2 := by norm_num
      rw [e, if_pos (by norm_num : (0:ℝ) ≤ 1/2)]
      norm_num
    rw [h1, Ball.diameter_to_default_scale, Ball.rasterizationBuffer,
      Ball.scaleLo, Ball.scaleHi, sceneWidth, inverse_interpolate_0_128]
    norm_num
  · norm_num

/-- C5 amended: the diameter round trip
`diameter_to_default_scale (diameter scale) = scale` holds exactly for the
Box, Bar, StandingSticks and Jar builders on every nonnegative scale; for
the Ball builder the radius is truncated to an integer, so the round trip
returns `⌊scale * 128⌋ / 128` — equal to `scale` only when
`scale * (SCENE_WIDTH / 2)` is an integer. -/
theorem diameter_round_trip (s : ℝ) (hs : 0 ≤ s) :
    Shapes.Box.diameter_to_default_scale (Shapes.Box.diameter s) = s ∧
    Shapes.Bar.diameter_to_default_scale (Shapes.Bar.diameter s) = s ∧
    Shapes.StandingSticks.diameter_to_default_scale
      (Shapes.StandingSticks.diameter s) = s ∧
    Shapes.Jar.diameter_to_default_scale (Shapes.Jar.diameter s) = s ∧
    Shapes.Ball.diameter_to_default_scale (Shapes.Ball.diameter s) =
      (⌊s * 128⌋ : ℝ) / 128 := by
  have hw : (0:ℝ) ≤ s * 256 := mul_nonneg hs (by norm_num)
  refine ⟨?_, ?_, ?_, ?_, ?_⟩
  · have h1 : Shapes.Box.diameter s = Real.sqrt (2 * (s * 256) ^ 2) := by
      simp only [Box.diameter, Box.diameter_of, Box.default_sizes,
        Box.scaleHi, sceneWidth, interpolate]
      congr 1
      ring
    rw [h1, Box.diameter_to_default_scale, Real.sq_sqrt (by positivity),
      show (2 * (s * 256) ^ 2) / 2 = (s * 256) ^ 2 by ring,
      Real.sqrt_sq hw, Box.scaleHi, sceneWidth, inverse_interpolate_0_256]
    field_simp
  · have h1 : Shapes.Bar.diameter s =
        Real.sqrt ((s * 256) ^ 2 + (256 / 50) ^ 2) := by
      simp only [Bar.diameter, Box.diameter_of, Bar.default_sizes,
        Bar.barHeight, Box.scaleHi, sceneWidth, interpolate]
      congr 1
      ring
    rw [h1, Bar.diameter_to_default_scale, Real.sq_sqrt (by positivity),
      Bar.barHeight, sceneWidth,
      show (s * 256) ^ 2 + (256 / 50) ^ 2 - (256 / 50 : ℝ) ^ 2 =
        (s * 256) ^ 2 by ring,
      Real.sqrt_sq hw, Box.scaleHi, sceneWidth, inverse_interpolate_0_256]
    field_simp
  · have h1 : Shapes.StandingSticks.diameter s =
        Real.sqrt ((s * 256) ^ 2 + (256 / 50) ^ 2) := by
      simp only [StandingSticks.diameter, StandingSticks.default_sizes,
        StandingSticks.barHeight, StandingSticks.scaleHi, sceneWidth,
        interpolate]
      congr 1
      ring
    rw [h1, StandingSticks.diameter_to_default_scale,
      Real.sq_sqrt (by positivity), StandingSticks.barHeight, sceneWidth,
      show (s * 256) ^ 2 + (256 / 50) ^ 2 - (256 / 50 : ℝ) ^ 2 =
        (s * 256) ^ 2 by ring,
      Real.sqrt_sq hw, StandingSticks.scaleHi, sceneWidth,
      inverse_interpolate_0_256]
    field_simp
  · have h1 : Shapes.Jar.diameter s =
        Real.sqrt ((25 / 16) * (s * 256) ^ 2) := by
      simp only [Jar.diameter, Jar.diameter_of, Jar.default_sizes,
        Jar.scaleHi, sceneWidth, interpolate, Jar.widthRatio, Jar.baseRatio]
      congr 1
      ring
    rw [h1, Jar.diameter_to_default_scale]
    simp only [Jar.baseRatio, Jar.widthRatio, Jar.scaleHi, sceneWidth]
    rw [Real.sq_sqrt (by positivity),
      show (25 / 16) * (s * 256) ^ 2 /
        (1 + (((1 - 4/5) / 2 + 4/5) * (5/6 : ℝ)) ^ 2) = (s * 256) ^ 2 by ring,
      Real.sqrt_sq hw, inverse_interpolate_0_256]
    field_simp
  · have e : ((1:ℝ) - s) * 0 + s * (256 / 2) = s * 128 := by ring
    have h1 : Shapes.Ball.diameter s = 2 * ((⌊s * 128⌋ : ℝ) + 1/2) := by
      simp only [Ball.diameter, Ball.diameter_of_radius, Ball.default_sizes,
        Ball.scaleLo, Ball.scaleHi, sceneWidth, interpolate, pyIntR,
        Ball.rasterizationBuffer]
      rw [e, if_pos (mul_nonneg hs (by norm_num : (0:ℝ) ≤ 128))]
    rw [h1, Ball.diameter_to_default_scale, Ball.rasterizationBuffer,
      Ball.scaleLo, Ball.scaleHi, sceneWidth, inverse_interpolate_0_128,
      show 2 * ((⌊s * 128⌋ : ℝ) + 1/2) / 2 - 1/2 = (⌊s * 128⌋ : ℝ) by ring]

/-- Closed instance of the amended C5 statement: the Box round trip is the
identity at scale one half. -/
theorem diameter_round_trip_witness :
    Shapes.Box.diameter_to_default_scale (Shapes.Box.diameter (1/2)) = 1/2 :=
  (diameter_round_trip (1/2) (by norm_num)).1

end Phyre.Shapes

end

namespace Phyre

/-- Indexing into the looped vertex list `points + points[:2]` is indexing
into the original list modulo its length. -/
theorem looped_getElem (ps : List Vector) (hn : 3 ≤ ps.length) (j : ℕ)
    (hj : j < (ps ++ ps.take 2).length) :
    (ps ++ ps.take 2)[j] =
      ps.get ⟨j % ps.length, Nat.mod_lt _ (by omega)⟩ := by
  have hlen : (ps ++ ps.take 2).length = ps.length + 2 := by
    simp [List.length_take]
    omega
  rcases lt_or_ge j ps.length with hlt | hge
  · rw [List.getElem_append_left hlt, List.get_eq_getElem]
    simp only [Nat.mod_eq_of_lt hlt]
  · rw [List.getElem_append_right hge, List.getElem_take,
      List.get_eq_getElem]
    have hj2 : j < ps.length + 2 := by omega
    have e : j % ps.length = j - ps.length := by
      rw [Nat.mod_eq_sub_mod hge, Nat.mod_eq_of_lt (by omega)]
    simp only [e]

/-- C8: `is_valid_convex_polygon` returns `True` exactly when there are at
least three vertices and every consecutive looped triple has strictly
positive cross product (indices taken modulo the length), and
`vertices_to_polygon` produces a shape exactly on such lists — on any
other list the construction fails (`none`, the assertion). -/
theorem is_valid_convex_polygon_spec (ps : List Vector) :
    (is_valid_convex_polygon ps = true ↔
      (3 ≤ ps.length ∧ ∀ i : Fin ps.length,
        0 < cross_at (ps.get i)
          (ps.get ⟨(i.val + 1) % ps.length, Nat.mod_lt _ i.pos⟩)
          (ps.get ⟨(i.val + 2) % ps.length, Nat.mod_lt _ i.pos⟩))) ∧
    (vertices_to_polygon ps = none ↔ ¬ is_valid_convex_polygon ps = true) := by
  constructor
  · rw [is_valid_convex_polygon]
    by_cases h3 : ps.length < 3
    · rw [if_pos h3]
      constructor
      · intro h
        exact absurd h (by simp)
      · rintro ⟨hlen, -⟩
        exact absurd hlen (by omega)
    · have hn : 3 ≤ ps.length := Nat.le_of_not_lt h3
      rw [if_neg h3]
      have hlen : (ps ++ ps.take 2).length = ps.length + 2 := by
        simp [List.length_take]
        omega
      have hzlen : ((ps ++ ps.take 2).zip
          (((ps ++ ps.take 2).drop 1).zip ((ps ++ ps.take 2).drop 2))).length =
          ps.length := by
        simp [List.length_zip, List.length_drop, hlen]
      simp only [List.all_eq_true, decide_eq_true_eq]
      constructor
      · intro hall
        refine ⟨hn, fun i => ?_⟩
        rcases i with ⟨iv, hiv⟩
        have hi : iv < ((ps ++ ps.take 2).zip
            (((ps ++ ps.take 2).drop 1).zip
              ((ps ++ ps.take 2).drop 2))).length := by omega
        have hmem := List.getElem_mem hi
        have hc := hall _ hmem
        rw [List.getElem_zip, List.getElem_zip] at hc
        dsimp only at hc
        rw [List.getElem_drop, List.getElem_drop] at hc
        rw [looped_getElem ps hn iv, looped_getElem ps hn (1 + iv),
          looped_getElem ps hn (2 + iv)] at hc
        simp only [Nat.mod_eq_of_lt hiv, Nat.add_comm 1 iv,
          Nat.add_comm 2 iv] at hc
        simpa using hc
      · rintro ⟨-, hall⟩ t ht
        obtain ⟨j, hj, rfl⟩ := List.mem_iff_getElem.mp ht
        rw [List.getElem_zip, List.getElem_zip]
        dsimp only
        rw [List.getElem_drop, List.getElem_drop]
        have hjn : j < ps.length := by
          rw [hzlen] at hj
          exact hj
        rw [looped_getElem ps hn j, looped_getElem ps hn (1 + j),
          looped_getElem ps hn (2 + j)]
        have hc := hall ⟨j, hjn⟩
        simpa [Nat.mod_eq_of_lt hjn, Nat.add_comm 1 j, Nat.add_comm 2 j]
          using hc
  · cases hv : is_valid_convex_polygon ps <;> simp [vertices_to_polygon, hv]

/-- Closed instance of C9: with a dynamic first body and a static second
one, `LEFT_OF` is stored as `RIGHT_OF` with indices swapped. -/
theorem update_task_left_of_normalized_witness :
    ([⟨0, true⟩, ⟨1, false⟩] : List Body).indexOf? ⟨1, false⟩ = some 1 ∧
    ([⟨0, true⟩, ⟨1, false⟩] : List Body).indexOf? ⟨0, true⟩ = some 0 :=
  let h := update_task_left_of_normalized.1 [⟨0, true⟩, ⟨1, false⟩]
    ⟨0, true⟩ ⟨1, false⟩ ⟨[SpatialRelationship.RIGHT_OF], 1, 0⟩ (by decide)
  ⟨h.2.1, h.2.2⟩

end Phyre
